import Mathlib

/-!
Verification of the 1Password credential-broker core
(src/backend/src/core and src/backend/src/acp) against its specification.

The Python source is shallowly embedded: each Lean definition below is a
direct translation of the function of the same name in the repository.
External libraries (the cryptography package's Fernet cipher, the json
module, pyjwt, httpx) are modelled at their documented interfaces.
-/

namespace Broker

/-- A credential map: a Python dict from field name to string value,
insertion ordered. -/
abbrev Cred := List (String × String)

/-- Model of a serialized JSON document for a flat string map: the json
library round-trips flat string-to-string maps faithfully, so the document
is identified with the map it encodes. -/
structure JsonDoc where
  val : Cred
deriving DecidableEq

/-- Model of json.dumps restricted to flat string maps. -/
def jsonDumps (d : Cred) : JsonDoc := ⟨d⟩

/-- Model of json.loads on a well-formed flat-map document. -/
def jsonLoads (j : JsonDoc) : Cred := j.val

/-- Model of a Fernet ciphertext string: the empty string, a genuine Fernet
token recording the (derived) key that produced it together with the
plaintext, or any other string that is not a valid Fernet token.
Authenticated encryption accepts a token only under the exact key that
produced it and rejects everything else (wrong key, truncation, tampering)
with a uniform failure. -/
inductive CipherText
  | empty
  | tok (key : String) (doc : JsonDoc)
  | junk (s : String)
deriving DecidableEq

/-- Fernet.encrypt under a derived key. -/
def fernetEncrypt (key : String) (doc : JsonDoc) : CipherText := .tok key doc

/-- Fernet.decrypt: succeeds exactly on tokens produced under the same
key. -/
def fernetDecrypt (key : String) : CipherText → Option JsonDoc
  | .tok k d => if k = key then some d else none
  | .empty => none
  | .junk _ => none

/-- TokenManager._initialize_fernet: PBKDF2-HMAC-SHA256 with the fixed salt
"1password-broker-salt" and 100000 iterations, so the derived key is a
deterministic, collision-free function of the master secret; modelled as an
injective tagging of the master secret. -/
def deriveKey (master : String) : String :=
  "pbkdf2-sha256:1password-broker-salt:100000:" ++ master

/-- TokenManager.encrypt_payload: json.dumps the credential dict, then
Fernet-encrypt under the key derived from the master secret. -/
def encrypt_payload (master : String) (data : Cred) : CipherText :=
  fernetEncrypt (deriveKey master) (jsonDumps data)

/-- TokenManager.decrypt_payload: Fernet-decrypt then json.loads; every
failure is mapped to the single generic ValueError message. -/
def decrypt_payload (master : String) (enc : CipherText) : Except String Cred :=
  match fernetDecrypt (deriveKey master) enc with
  | some doc => .ok (jsonLoads doc)
  | none => .error "Invalid or corrupted encrypted data"

/-- A JWT claim value: a string, an integer (timestamps and the TTL are
serialized as integers by pyjwt), or the embedded encrypted-credentials
string. -/
inductive ClaimVal
  | s (v : String)
  | i (v : Int)
  | enc (c : CipherText)
deriving DecidableEq

/-- A JWT claim set: a Python dict from claim name to value, insertion
ordered. -/
abbrev Claims := List (String × ClaimVal)

/-- Python dict lookup (.get) on an insertion-ordered association list. -/
def lookupAssoc {α : Type} : List (String × α) → String → Option α
  | [], _ => none
  | kv :: rest, k => if kv.1 = k then some kv.2 else lookupAssoc rest k

/-- Python dict lookup (.get) on a claim set. -/
abbrev lookupClaim (p : Claims) (k : String) : Option ClaimVal :=
  lookupAssoc p k

/-- Python dict.update: existing keys are overwritten in place, new keys
are appended in the update's order. -/
def pyDictUpdate (d upd : Claims) : Claims :=
  upd.foldl
    (fun acc kv =>
      if acc.any (fun p => p.1 = kv.1) then
        acc.map (fun p => if p.1 = kv.1 then kv else p)
      else acc ++ [kv])
    d

/-- Python falsy-or on an optional integer: `x or d` yields d both when x
is None and when x is 0. -/
def pyOrInt (x : Option Int) (d : Int) : Int :=
  match x with
  | none => d
  | some n => if n = 0 then d else n

/-- TokenManager construction state: signing secret, algorithm, default
TTL, and the Fernet master secret (which defaults to the JWT secret). -/
structure TokenManagerCfg where
  jwt_secret : String
  jwt_algorithm : String
  default_ttl_minutes : Int
  encryption_key : String
deriving DecidableEq

/-- A signed JWT: the claim set plus the secret and algorithm that signed
it (an ideal model of HMAC signing: verification under a secret/algorithm
pair succeeds exactly when they match the signing pair). -/
structure SignedJwt where
  claims : Claims
  secret : String
  alg : String
deriving DecidableEq

/-- TokenManager.generate_jwt: `ttl = ttl_minutes or default`, iat = now,
exp = now + ttl minutes (modelled in seconds), credentials encrypted with
the Fernet key, fixed issuer, then `payload.update(additional_claims)`. -/
def generate_jwt (cfg : TokenManagerCfg) (now : Int) (agent_id : String)
    (credentials : Cred) (resource_type resource_name : String)
    (ttl_minutes : Option Int) (additional_claims : Claims) : SignedJwt :=
  let ttl := pyOrInt ttl_minutes cfg.default_ttl_minutes
  let payload : Claims :=
    [("sub", .s agent_id),
     ("credentials", .enc (encrypt_payload cfg.encryption_key credentials)),
     ("resource_type", .s resource_type),
     ("resource_name", .s resource_name),
     ("iat", .i now),
     ("exp", .i (now + 60 * ttl)),
     ("iss", .s "1password-credential-broker"),
     ("ttl_minutes", .i ttl)]
  ⟨pyDictUpdate payload additional_claims, cfg.jwt_secret, cfg.jwt_algorithm⟩

/-- The two pyjwt failure signals TokenManager.verify_jwt re-raises:
ExpiredSignatureError and InvalidTokenError. -/
inductive JwtErr
  | expired
  | invalid
deriving DecidableEq

/-- TokenManager.verify_jwt (pyjwt decode at its interface): the signature
check succeeds exactly when the token was signed with the configured secret
and algorithm; then the exp claim is checked against the current time. -/
def verify_jwt (cfg : TokenManagerCfg) (now : Int) (tok : SignedJwt) :
    Except JwtErr Claims :=
  if tok.secret = cfg.jwt_secret ∧ tok.alg = cfg.jwt_algorithm then
    match lookupClaim tok.claims "exp" with
    | some (.i e) => if e ≤ now then .error .expired else .ok tok.claims
    | _ => .ok tok.claims
  else .error .invalid

/-- The failure signals of TokenManager.verify_and_decrypt: the two pyjwt
errors plus ValueError with its message. -/
inductive TokErr
  | expired
  | invalid
  | valueError (msg : String)
deriving DecidableEq

/-- The jwt errors propagate through verify_and_decrypt unchanged. -/
def jwtErrToTokErr : JwtErr → TokErr
  | .expired => .expired
  | .invalid => .invalid

/-- Python truthiness test applied to the credentials claim value: falsy
for the empty string, integer zero and an empty ciphertext string. -/
def claimValFalsy : ClaimVal → Bool
  | .s v => v = ""
  | .i v => v = 0
  | .enc .empty => true
  | .enc _ => false

/-- A claim value handed to Fernet.decrypt: a value that is not a
ciphertext decrypts as garbage. -/
def claimToCipher : ClaimVal → CipherText
  | .enc c => c
  | .s v => .junk v
  | .i v => .junk (toString v)

/-- The dictionary returned by TokenManager.verify_and_decrypt: the
decrypted credentials plus the claims read back with .get. -/
structure DecryptedContext where
  agent_id : Option ClaimVal
  credentials : Cred
  resource_type : Option ClaimVal
  resource_name : Option ClaimVal
  issued_at : Option ClaimVal
  expires_at : Option ClaimVal
  ttl_minutes : Option ClaimVal
deriving DecidableEq

/-- The result-building tail of TokenManager.verify_and_decrypt. -/
def mkDecryptedContext (payload : Claims) (creds : Cred) :
    DecryptedContext :=
  ⟨lookupClaim payload "sub", creds,
   lookupClaim payload "resource_type", lookupClaim payload "resource_name",
   lookupClaim payload "iat", lookupClaim payload "exp",
   lookupClaim payload "ttl_minutes"⟩

/-- TokenManager.verify_and_decrypt: verify_jwt, then the falsiness check
on payload.get("credentials"), then decrypt_payload; each step's failure
propagates unchanged. -/
def verify_and_decrypt (cfg : TokenManagerCfg) (now : Int)
    (tok : SignedJwt) : Except TokErr DecryptedContext :=
  match verify_jwt cfg now tok with
  | .error e => .error (jwtErrToTokErr e)
  | .ok payload =>
    match lookupClaim payload "credentials" with
    | none => .error (.valueError "Token does not contain encrypted credentials")
    | some v =>
      if claimValFalsy v then
        .error (.valueError "Token does not contain encrypted credentials")
      else
        match decrypt_payload cfg.encryption_key (claimToCipher v) with
        | .error m => .error (.valueError m)
        | .ok creds => .ok (mkDecryptedContext payload creds)

/-- The re module's \s class (ASCII range). -/
def pyIsSpace (c : Char) : Bool :=
  c = ' ' || c = '\t' || c = '\n' || c = '\r' || c = '\x0b' || c = '\x0c'

/-- One element of a source regex pattern, covering exactly the constructs
IntentParser.PATTERNS uses: an ordered alternation of literal words (a
plain literal is a one-element alternation, and a trailing s? is expanded
into its two alternatives in greedy order), a mandatory whitespace gap
\s+, and the single capture group of non-space characters. -/
inductive Tok
  | alt (alts : List String)
  | ws
  | cap
deriving DecidableEq

abbrev Pattern := List Tok

/-- First success of f over a list, in order. -/
def firstSome {α β : Type} (f : α → Option β) : List α → Option β
  | [] => none
  | x :: xs =>
    match f x with
    | some r => some r
    | none => firstSome f xs

/-- Candidate consumption lengths for a greedy repetition over a run of n
eligible characters, longest first, at least one: [n, n-1, ..., 1]. -/
def greedyLens (n : Nat) : List Nat :=
  (List.range n).map (fun i => n - i)

/-- Backtracking regex match anchored at the head of cs: outer none means
no match here; on a match the inner option is the text of the capture
group (group 1). Alternatives and greedy repetitions are tried in the
order the re module tries them. -/
def matchToks : Pattern → List Char → Option (Option (List Char))
  | [], _ => some none
  | .alt alts :: ts, cs =>
    firstSome
      (fun w =>
        if w.data.isPrefixOf cs then matchToks ts (cs.drop w.data.length)
        else none)
      alts
  | .ws :: ts, cs =>
    firstSome (fun k => matchToks ts (cs.drop k))
      (greedyLens (cs.takeWhile pyIsSpace).length)
  | .cap :: ts, cs =>
    firstSome
      (fun k => (matchToks ts (cs.drop k)).map (fun _ => some (cs.take k)))
      (greedyLens (cs.takeWhile (fun c => !pyIsSpace c)).length)

/-- re.search: try the pattern at each start position, leftmost match
wins. -/
def reSearch (p : Pattern) : List Char → Option (Option (List Char))
  | [] => matchToks p []
  | cs@(_ :: rest) =>
    match matchToks p cs with
    | some r => some r
    | none => reSearch p rest

/-- The alternation credentials?|creds?|access, expanded. -/
def credAccessWords : List String :=
  ["credentials", "credential", "creds", "cred", "access"]

/-- The alternation credentials?|creds?|access|token, expanded. -/
def credAccessTokenWords : List String :=
  ["credentials", "credential", "creds", "cred", "access", "token"]

/-- The alternation credentials?|creds?|key|keys?|access, expanded. -/
def sshWords : List String :=
  ["credentials", "credential", "creds", "cred", "key", "keys", "key",
   "access"]

/-- IntentParser.PATTERNS["database"], in listed order. -/
def dbPatterns : List Pattern :=
  [[.alt ["database"], .ws, .alt credAccessWords, .ws, .alt ["for"], .ws, .cap],
   [.alt ["db"], .ws, .alt credAccessWords, .ws, .alt ["for"], .ws, .cap],
   [.alt credAccessWords, .ws, .alt ["for"], .ws, .alt ["database", "db"],
    .ws, .cap],
   [.alt ["need"], .ws, .cap, .ws, .alt ["database"]],
   [.cap, .ws, .alt ["database"], .ws,
    .alt ["credentials", "credential", "creds", "cred"]]]

/-- IntentParser.PATTERNS["api"], in listed order (the text is lowercased
before matching and the flag makes matching case-insensitive, so the
api|API alternation is a single lowercase word). -/
def apiPatterns : List Pattern :=
  [[.alt ["api"], .ws, .alt credAccessTokenWords, .ws, .alt ["for"], .ws, .cap],
   [.alt credAccessTokenWords, .ws, .alt ["for"], .ws, .alt ["api"], .ws, .cap],
   [.alt ["need"], .ws, .cap, .ws, .alt ["api"]],
   [.cap, .ws, .alt ["api"], .ws,
    .alt ["credentials", "credential", "creds", "cred", "token"]]]

/-- IntentParser.PATTERNS["ssh"], in listed order. -/
def sshPatterns : List Pattern :=
  [[.alt ["ssh"], .ws, .alt sshWords, .ws, .alt ["for"], .ws, .cap],
   [.alt sshWords, .ws, .alt ["for"], .ws, .alt ["ssh"], .ws, .cap],
   [.alt ["need"], .ws, .cap, .ws, .alt ["ssh"]],
   [.cap, .ws, .alt ["ssh"], .ws,
    .alt ["credentials", "credential", "creds", "cred", "key", "keys",
          "key"]]]

/-- IntentParser.PATTERNS: a Python dict iterated in insertion order:
database, then api, then ssh. -/
def PATTERNS : List (String × List Pattern) :=
  [("database", dbPatterns), ("api", apiPatterns), ("ssh", sshPatterns)]

/-- The generic fallback patterns of IntentParser.parse_intent, in listed
order. -/
def genericPatterns : List Pattern :=
  [[.alt ["credentials", "credential"], .ws, .alt ["for"], .ws, .cap],
   [.alt ["creds", "cred"], .ws, .alt ["for"], .ws, .cap],
   [.alt ["access"], .ws, .alt ["to"], .ws, .cap],
   [.alt ["secret"], .ws, .alt ["for"], .ws, .cap]]

/-- The inner pattern loop: re.search each pattern in listed order, the
first match wins and breaks. -/
def firstPatternMatch : List Pattern → List Char → Option (Option (List Char))
  | [], _ => none
  | p :: ps, cs =>
    match reSearch p cs with
    | some r => some r
    | none => firstPatternMatch ps cs

/-- The typed outer loop over PATTERNS: the first resource type with a
matching pattern wins and breaks. -/
def findTyped : List (String × List Pattern) → List Char →
    Option (String × Option (List Char))
  | [], _ => none
  | (ty, pats) :: rest, cs =>
    match firstPatternMatch pats cs with
    | some r => some (ty, r)
    | none => findTyped rest cs

/-- The generic fallback loop: first matching generic pattern gives the
resource name. -/
def firstGenericName : List Pattern → List Char → Option (List Char)
  | [], _ => none
  | p :: ps, cs =>
    match reSearch p cs with
    | some r => r
    | none => firstGenericName ps cs

/-- Decimal value of a digit run, as int() computes it. -/
def natOfDigits (ds : List Char) : Nat :=
  ds.foldl (fun a c => 10 * a + (c.toNat - 48)) 0

/-- The duration regex, one or more digits then optional whitespace then
minute|min|minutes|mins, attempted at the head of cs. Since min is itself
an alternative and a prefix of the others, the alternation succeeds
exactly when the remaining text starts with min. -/
def durMatchAt (cs : List Char) : Option Nat :=
  let ds := cs.takeWhile Char.isDigit
  if ds.isEmpty then none
  else if "min".data.isPrefixOf ((cs.drop ds.length).dropWhile pyIsSpace)
  then some (natOfDigits ds)
  else none

/-- re.search for the duration expression: leftmost match. -/
def findDuration : List Char → Option Nat
  | [] => none
  | cs@(_ :: rest) =>
    match durMatchAt cs with
    | some n => some n
    | none => findDuration rest

/-- Python str.lower of the input text (ASCII range). -/
def strLower (s : String) : List Char := s.data.map Char.toLower

/-- The dict returned by IntentParser.parse_intent. -/
structure ParsedIntent where
  resource_type : String
  resource_name : Option String
  duration_minutes : Nat
  original_text : String
deriving DecidableEq

/-- IntentParser.parse_intent: typed patterns in priority order, generic
fallback, then the duration scan with its upper cap of 15 and default of
5. -/
def parse_intent (text : String) : ParsedIntent :=
  let lower := strLower text
  let tyName :=
    match findTyped PATTERNS lower with
    | some (ty, cap) => (ty, cap)
    | none => ("generic", firstGenericName genericPatterns lower)
  let duration :=
    match findDuration lower with
    | none => 5
    | some n => min n 15
  ⟨tyName.1, tyName.2.map (fun l => String.mk l), duration, text⟩

/-- An audit event as built by AuditLogger._create_event_payload. -/
structure AuditEvent where
  timestamp : String
  event_type : String
  protocol : String
  agent_id : String
  resource : String
  outcome : String
  source : String
  version : String
  metadata : Option (List (String × String))
deriving DecidableEq

/-- AuditLogger._create_event_payload: fixed source and version fields,
metadata only when provided. -/
def create_event_payload (timestamp event_type protocol agent_id resource
    outcome : String) (metadata : Option (List (String × String))) :
    AuditEvent :=
  ⟨timestamp, event_type, protocol, agent_id, resource, outcome,
   "1password-credential-broker", "1.0.0", metadata⟩

/-- Outcome of one HTTP POST attempt to the Events API: a 2xx status, a
non-2xx status, or a raised exception (network error). -/
inductive PostOutcome
  | ok2xx
  | badStatus
  | exn
deriving DecidableEq

/-- The recursive retry loop of AuditLogger._post_event_to_api: a non-2xx
status returns False without retrying; an exception retries (after a
backoff sleep) while retry_count < max_retries. Returns the success flag
and the number of HTTP attempts made; the fuel argument bounds the
recursion and max_retries + 1 is always enough. -/
def postAttemptsAux (deliver : Nat → PostOutcome) (maxRetries : Nat) :
    Nat → Nat → Bool × Nat
  | 0, _ => (false, 0)
  | fuel + 1, k =>
    match deliver k with
    | .ok2xx => (true, 1)
    | .badStatus => (false, 1)
    | .exn =>
      if k < maxRetries then
        let r := postAttemptsAux deliver maxRetries fuel (k + 1)
        (r.1, r.2 + 1)
      else (false, 1)

/-- AuditLogger._post_event_to_api: returns False immediately, with no
HTTP attempt, when the Events API is not configured. -/
def post_event_to_api (enabled : Bool) (deliver : Nat → PostOutcome)
    (maxRetries : Nat) : Bool × Nat :=
  if enabled then postAttemptsAux deliver maxRetries (maxRetries + 1) 0
  else (false, 0)

/-- collections.deque(maxlen=1000).append: appends on the right and
silently evicts from the left when the bound is exceeded; it never raises
or blocks. -/
def dequeAppend {α : Type} (maxlen : Nat) (q : List α) (x : α) : List α :=
  let q2 := q ++ [x]
  if maxlen < q2.length then q2.drop (q2.length - maxlen) else q2

/-- AuditLogger state: collector endpoint configuration (None covers both
an unset and an empty environment value, matching Python truthiness), the
retry policy, the bounded retry queue and the local fallback log. -/
structure AuditLoggerState where
  events_api_url : Option String
  events_api_token : Option String
  max_retries : Nat
  enable_local_fallback : Bool
  failed_events_queue : List AuditEvent
  local_log : List AuditEvent
deriving DecidableEq

/-- self.events_api_enabled = bool(url and token). -/
def eventsApiEnabled (st : AuditLoggerState) : Bool :=
  st.events_api_url.isSome && st.events_api_token.isSome

/-- AuditLogger._log_event_locally: appends to the local file when the
fallback is enabled; write failures are swallowed. -/
def log_event_locally (st : AuditLoggerState) (e : AuditEvent) :
    AuditLoggerState :=
  if st.enable_local_fallback then
    { st with local_log := st.local_log ++ [e] }
  else st

/-- AuditLogger.log_credential_access: build the event, always log it
locally first, then post to the Events API; on failure append the event to
the bounded retry queue. Returns the new state and the number of HTTP
attempts made. -/
def log_credential_access (st : AuditLoggerState)
    (deliver : Nat → PostOutcome) (timestamp protocol agent_id resource
    outcome : String) (metadata : Option (List (String × String))) :
    AuditLoggerState × Nat :=
  let event := create_event_payload timestamp "credential_access" protocol
    agent_id resource outcome metadata
  let st1 := log_event_locally st event
  let post := post_event_to_api (eventsApiEnabled st) deliver st.max_retries
  if post.1 then (st1, post.2)
  else
    ({ st1 with
        failed_events_queue := dequeAppend 1000 st1.failed_events_queue event },
     post.2)

/-- A 1Password vault reference as exposed on an SDK item. -/
structure OPVault where
  id : String
deriving DecidableEq

/-- A field of a 1Password item: a label and a value. -/
structure OPField where
  label : String
  value : String
deriving DecidableEq

/-- A 1Password item as consumed by extract_credential_fields; the
optional username and vault model attribute presence (hasattr) combined
with Python truthiness. -/
structure OPItem where
  id : String
  title : String
  username : Option String
  fields : List OPField
  vault : Option OPVault
deriving DecidableEq

/-- Python dict key assignment d[k] = v: overwrites in place, appends new
keys. -/
def dictInsert (d : List (String × String)) (k v : String) :
    List (String × String) :=
  if d.any (fun p => p.1 = k) then
    d.map (fun p => if p.1 = k then (k, v) else p)
  else d ++ [(k, v)]

/-- OnePasswordClient.extract_credential_fields: username if present and
truthy, then every field with a truthy value, then the three metadata
keys, with _vault_id falling back to "unknown" when the item has no vault
attribute. -/
def extract_credential_fields (item : OPItem) : Cred :=
  let creds : Cred :=
    match item.username with
    | some u => if u = "" then [] else dictInsert [] "username" u
    | none => []
  let creds := item.fields.foldl
    (fun acc f => if f.value = "" then acc else dictInsert acc f.label f.value)
    creds
  let creds := dictInsert creds "_item_id" item.id
  let creds := dictInsert creds "_item_title" item.title
  dictInsert creds "_vault_id"
    (match item.vault with
     | some v => v.id
     | none => "unknown")

/-- The valid resource types, in enum declaration order. -/
def ResourceTypeValues : List String := ["database", "api", "ssh", "generic"]

/-- CredentialManager.fetch_credentials, instrumented with the list of
titles the vault gateway lookup was invoked on (in call order): validate
resource_type against the enum first, then call get_item_by_title, then
not-found handling, then field extraction. -/
def fetch_credentials (lookup : String → Option String → Option OPItem)
    (resource_type resource_name : String) (vault_id : Option String) :
    Except String Cred × List String :=
  if ResourceTypeValues.contains resource_type then
    match lookup resource_name vault_id with
    | none =>
      (.error ("Resource \x27" ++ resource_name ++
        "\x27 not found in 1Password vault"), [resource_name])
    | some item =>
      (.ok (extract_credential_fields item), [resource_name])
  else
    (.error ("Invalid resource_type: " ++ resource_type ++
      ". Must be one of: [\x27database\x27, \x27api\x27, \x27ssh\x27, \x27generic\x27]"),
     [])

/-- A sample vault item (no vault attribute) for concrete evaluation. -/
def sampleItem : OPItem :=
  ⟨"id-1", "Item One", some "alice", [⟨"password", "p4ss"⟩], none⟩

/-- A sample vault gateway holding exactly sampleItem under the title
"item-1". -/
def sampleLookup : String → Option String → Option OPItem :=
  fun title _ => if title = "item-1" then some sampleItem else none

theorem deriveKey_inj {k k' : String} (h : deriveKey k = deriveKey k') :
    k = k' := by
  have h2 := congrArg String.data h
  simp only [deriveKey, String.data_append] at h2
  exact String.ext (List.append_cancel_left h2)

/-- C1: decrypting the encryption of a credential map with the same master
secret returns exactly the map; decrypting it with a different master
secret fails with the generic invalid-data error, not a cause-specific
one. -/
theorem c1_encrypt_decrypt_roundtrip (C : Cred) (K K' : String)
    (hne : K' ≠ K) :
    decrypt_payload K (encrypt_payload K C) = .ok C ∧
    decrypt_payload K' (encrypt_payload K C) =
      .error "Invalid or corrupted encrypted data" := by
  refine ⟨by simp [decrypt_payload, encrypt_payload, fernetDecrypt,
    fernetEncrypt, jsonDumps, jsonLoads], ?_⟩
  have hk : deriveKey K ≠ deriveKey K' := fun h => hne (deriveKey_inj h).symm
  simp [decrypt_payload, encrypt_payload, fernetDecrypt, fernetEncrypt, hk]

/-- Witness for C1 at a concrete map and concrete distinct secrets. -/
theorem c1_encrypt_decrypt_roundtrip_witness :
    ("master-two" : String) ≠ "master-one" ∧
    (decrypt_payload "master-one"
        (encrypt_payload "master-one" [("username", "alice"), ("password", "p4ss")]) =
      .ok [("username", "alice"), ("password", "p4ss")] ∧
    decrypt_payload "master-two"
        (encrypt_payload "master-one" [("username", "alice"), ("password", "p4ss")]) =
      .error "Invalid or corrupted encrypted data") :=
  ⟨by decide,
   c1_encrypt_decrypt_roundtrip [("username", "alice"), ("password", "p4ss")]
     "master-one" "master-two" (by decide)⟩

theorem lookupAssoc_map_replace {α : Type} (acc : List (String × α))
    (kv : String × α) (k : String) (h : kv.1 ≠ k) :
    lookupAssoc (acc.map (fun p => if p.1 = kv.1 then kv else p)) k =
      lookupAssoc acc k := by
  induction acc with
  | nil => rfl
  | cons p rest ih =>
    by_cases hp : p.1 = kv.1
    · simp only [List.map_cons, hp, if_pos rfl, lookupAssoc, if_neg h]
      rw [if_neg (hp ▸ h), ih]
    · simp only [List.map_cons, if_neg hp, lookupAssoc, ih]

theorem lookupAssoc_append_singleton {α : Type} (acc : List (String × α))
    (kv : String × α) (k : String) (h : kv.1 ≠ k) :
    lookupAssoc (acc ++ [kv]) k = lookupAssoc acc k := by
  induction acc with
  | nil => simp [lookupAssoc, if_neg h]
  | cons p rest ih =>
    show (if p.1 = k then some p.2 else lookupAssoc (rest ++ [kv]) k) = _
    rw [ih]
    rfl

theorem lookupClaim_pyDictUpdate (d upd : Claims) (k : String)
    (h : lookupClaim upd k = none) :
    lookupClaim (pyDictUpdate d upd) k = lookupClaim d k := by
  induction upd generalizing d with
  | nil => rfl
  | cons kv rest ih =>
    have hk : kv.1 ≠ k := by
      intro he
      simp [lookupClaim, lookupAssoc, he] at h
    have hr : lookupClaim rest k = none := by
      simpa [lookupClaim, lookupAssoc, if_neg hk] using h
    simp only [pyDictUpdate, List.foldl_cons] at *
    rw [ih _ hr]
    by_cases hc : d.any (fun p => p.1 = kv.1)
    · rw [if_pos hc]
      exact lookupAssoc_map_replace _ _ _ hk
    · rw [if_neg hc]
      exact lookupAssoc_append_singleton _ _ _ hk

/-- C2: in every token issued by generate_jwt whose additional claims do
not rebind iat, exp or ttl_minutes, the stored claims satisfy
exp = iat + 60 * ttl_minutes (expiry is exactly issued-at plus the TTL
recorded in the same token). -/
theorem c2_exp_eq_iat_plus_ttl (cfg : TokenManagerCfg) (now : Int)
    (agent_id : String) (credentials : Cred)
    (resource_type resource_name : String) (ttl_minutes : Option Int)
    (additional_claims : Claims)
    (hiat : lookupClaim additional_claims "iat" = none)
    (hexp : lookupClaim additional_claims "exp" = none)
    (httl : lookupClaim additional_claims "ttl_minutes" = none)
    (i e t : Int)
    (h1 : lookupClaim (generate_jwt cfg now agent_id credentials
            resource_type resource_name ttl_minutes additional_claims).claims
            "iat" = some (.i i))
    (h2 : lookupClaim (generate_jwt cfg now agent_id credentials
            resource_type resource_name ttl_minutes additional_claims).claims
            "exp" = some (.i e))
    (h3 : lookupClaim (generate_jwt cfg now agent_id credentials
            resource_type resource_name ttl_minutes additional_claims).claims
            "ttl_minutes" = some (.i t)) :
    e = i + 60 * t := by
  rw [generate_jwt] at h1 h2 h3
  simp only [lookupClaim_pyDictUpdate _ _ _ hiat] at h1
  simp only [lookupClaim_pyDictUpdate _ _ _ hexp] at h2
  simp only [lookupClaim_pyDictUpdate _ _ _ httl] at h3
  simp [lookupClaim, lookupAssoc] at h1 h2 h3
  omega

/-- Witness for C2 at a concrete call (with a benign extra claim). -/
theorem c2_exp_eq_iat_plus_ttl_witness :
    lookupClaim [("scope", ClaimVal.s "demo")] "iat" = none ∧
    lookupClaim [("scope", ClaimVal.s "demo")] "exp" = none ∧
    lookupClaim [("scope", ClaimVal.s "demo")] "ttl_minutes" = none ∧
    lookupClaim (generate_jwt ⟨"sec", "HS256", 5, "sec"⟩ 1000 "agent-1"
        [("username", "alice")] "database" "prod-db" (some 3)
        [("scope", ClaimVal.s "demo")]).claims "iat" = some (.i 1000) ∧
    lookupClaim (generate_jwt ⟨"sec", "HS256", 5, "sec"⟩ 1000 "agent-1"
        [("username", "alice")] "database" "prod-db" (some 3)
        [("scope", ClaimVal.s "demo")]).claims "exp" = some (.i 1180) ∧
    lookupClaim (generate_jwt ⟨"sec", "HS256", 5, "sec"⟩ 1000 "agent-1"
        [("username", "alice")] "database" "prod-db" (some 3)
        [("scope", ClaimVal.s "demo")]).claims "ttl_minutes" = some (.i 3) ∧
    (1180 : Int) = 1000 + 60 * 3 :=
  ⟨by decide, by decide, by decide, by decide, by decide, by decide,
   c2_exp_eq_iat_plus_ttl ⟨"sec", "HS256", 5, "sec"⟩ 1000 "agent-1"
     [("username", "alice")] "database" "prod-db" (some 3)
     [("scope", ClaimVal.s "demo")] (by decide) (by decide) (by decide)
     1000 1180 3 (by decide) (by decide) (by decide)⟩

/-- C3 counterexample: on the text "credentials for db1 for 0 minutes" the
parsed duration is 0, outside the claimed inclusive range [1,15]. -/
theorem c3_duration_counterexample :
    ¬ (1 ≤ (parse_intent "credentials for db1 for 0 minutes").duration_minutes ∧
       (parse_intent "credentials for db1 for 0 minutes").duration_minutes ≤ 15) := by
  decide

/-- C3 amended: the duration scan only caps above: when a duration
expression with number N is present the result is min N 15 (so N = 0
yields 0, and the result is always at most 15); when absent the default is
5. There is no lower clamp to 1. -/
theorem c3_duration_cap_only (text : String) :
    (parse_intent text).duration_minutes ≤ 15 ∧
    (findDuration (strLower text) = none →
      (parse_intent text).duration_minutes = 5) ∧
    (∀ n, findDuration (strLower text) = some n →
      (parse_intent text).duration_minutes = min n 15) := by
  have hd : (parse_intent text).duration_minutes =
      (match findDuration (strLower text) with
       | none => 5
       | some n => min n 15) := rfl
  refine ⟨?_, ?_, ?_⟩
  · rw [hd]
    cases h : findDuration (strLower text) with
    | none => decide
    | some n => exact Nat.min_le_right n 15
  · intro h
    rw [hd, h]
  · intro n h
    rw [hd, h]

/-- Witness for C3 amended at the spec's own capped example. -/
theorem c3_duration_cap_only_witness :
    findDuration (strLower "Get credentials for 100 minutes") = some 100 ∧
    (parse_intent "Get credentials for 100 minutes").duration_minutes =
      min 100 15 :=
  ⟨by decide,
   (c3_duration_cap_only "Get credentials for 100 minutes").2.2 100 (by decide)⟩

theorem firstPatternMatch_append (ps1 ps2 : List Pattern) (p : Pattern)
    (cs : List Char) (h1 : ∀ q ∈ ps1, reSearch q cs = none) (r : Option (List Char))
    (hp : reSearch p cs = some r) :
    firstPatternMatch (ps1 ++ p :: ps2) cs = some r := by
  induction ps1 with
  | nil => simp [firstPatternMatch, hp]
  | cons q qs ih =>
    have hq : reSearch q cs = none := h1 q (List.mem_cons_self q qs)
    simp only [List.cons_append, firstPatternMatch, hq]
    exact ih (fun x hx => h1 x (List.mem_cons_of_mem q hx))

theorem findTyped_PATTERNS (l : List Char) :
    findTyped PATTERNS l =
      (match firstPatternMatch dbPatterns l with
       | some r => some ("database", r)
       | none =>
         match firstPatternMatch apiPatterns l with
         | some r => some ("api", r)
         | none =>
           match firstPatternMatch sshPatterns l with
           | some r => some ("ssh", r)
           | none => none) := rfl

/-- C5: the parser tries database patterns, then api patterns, then ssh
patterns, the first matching pattern of the first matching type winning;
in particular any text with a database-pattern match parses with
resource_type database (and the name captured by the first matching
database pattern), regardless of api, ssh or generic matches. -/
theorem c5_pattern_priority (text : String) :
    (∀ r, firstPatternMatch dbPatterns (strLower text) = some r →
      (parse_intent text).resource_type = "database" ∧
      (parse_intent text).resource_name = r.map (fun l => String.mk l)) ∧
    (firstPatternMatch dbPatterns (strLower text) = none →
     ∀ r, firstPatternMatch apiPatterns (strLower text) = some r →
      (parse_intent text).resource_type = "api") ∧
    (firstPatternMatch dbPatterns (strLower text) = none →
     firstPatternMatch apiPatterns (strLower text) = none →
     ∀ r, firstPatternMatch sshPatterns (strLower text) = some r →
      (parse_intent text).resource_type = "ssh") ∧
    (firstPatternMatch dbPatterns (strLower text) = none →
     firstPatternMatch apiPatterns (strLower text) = none →
     firstPatternMatch sshPatterns (strLower text) = none →
      (parse_intent text).resource_type = "generic") ∧
    (∀ ps1 p ps2, dbPatterns = ps1 ++ p :: ps2 →
     (∀ q ∈ ps1, reSearch q (strLower text) = none) →
     ∀ r, reSearch p (strLower text) = some r →
      (parse_intent text).resource_name = r.map (fun l => String.mk l)) := by
  refine ⟨?_, ?_, ?_, ?_, ?_⟩
  · intro r h
    constructor <;>
      simp [parse_intent, findTyped_PATTERNS, h]
  · intro h0 r h
    simp [parse_intent, findTyped_PATTERNS, h0, h]
  · intro h0 h1 r h
    simp [parse_intent, findTyped_PATTERNS, h0, h1, h]
  · intro h0 h1 h2
    simp [parse_intent, findTyped_PATTERNS, h0, h1, h2]
  · intro ps1 p ps2 hsplit hnone r hp
    have hfp : firstPatternMatch dbPatterns (strLower text) = some r := by
      rw [hsplit]
      exact firstPatternMatch_append ps1 ps2 p (strLower text) hnone r hp
    simp [parse_intent, findTyped_PATTERNS, hfp]

/-- Witness for C5: a text matching both a database pattern and a generic
pattern parses as database. -/
theorem c5_pattern_priority_witness :
    firstPatternMatch dbPatterns (strLower "database credentials for prod-db") =
      some (some "prod-db".data) ∧
    (firstPatternMatch genericPatterns
      (strLower "database credentials for prod-db")).isSome = true ∧
    ((parse_intent "database credentials for prod-db").resource_type =
       "database" ∧
     (parse_intent "database credentials for prod-db").resource_name =
       (some "prod-db".data).map (fun l => String.mk l)) :=
  ⟨by decide, by decide,
   (c5_pattern_priority "database credentials for prod-db").1
     (some "prod-db".data) (by decide)⟩

/-- C9: generate_jwt evaluates the TTL with a Python falsy-or, so an
explicit ttl_minutes of 0 issues exactly the token that no TTL at all
would issue; with the default TTL of 5 the stored ttl_minutes claim is 5;
and the intent parser does parse a "0 minutes" phrase to a duration of
0 that then takes this path. -/
theorem c9_zero_ttl_uses_default (cfg : TokenManagerCfg) (now : Int)
    (agent_id : String) (credentials : Cred)
    (resource_type resource_name : String) (additional_claims : Claims) :
    generate_jwt cfg now agent_id credentials resource_type resource_name
        (some 0) additional_claims =
      generate_jwt cfg now agent_id credentials resource_type resource_name
        none additional_claims ∧
    (cfg.default_ttl_minutes = 5 →
     lookupClaim additional_claims "ttl_minutes" = none →
      lookupClaim (generate_jwt cfg now agent_id credentials resource_type
        resource_name (some 0) additional_claims).claims "ttl_minutes" =
        some (.i 5)) ∧
    (parse_intent "Get credentials for demo-db for 0 minutes").duration_minutes
      = 0 := by
  refine ⟨by simp [generate_jwt, pyOrInt], ?_, by decide⟩
  intro h5 hna
  rw [generate_jwt]
  simp only []
  rw [lookupClaim_pyDictUpdate _ _ _ hna]
  simp [lookupAssoc, pyOrInt, h5]

/-- Witness for C9 at a concrete configuration and call. -/
theorem c9_zero_ttl_uses_default_witness :
    (TokenManagerCfg.mk "sec" "HS256" 5 "sec").default_ttl_minutes = 5 ∧
    lookupClaim ([] : Claims) "ttl_minutes" = none ∧
    lookupClaim (generate_jwt ⟨"sec", "HS256", 5, "sec"⟩ 1000 "agent-1"
      [("username", "alice")] "database" "prod-db" (some 0) []).claims
      "ttl_minutes" = some (.i 5) :=
  ⟨by decide, by decide,
   (c9_zero_ttl_uses_default ⟨"sec", "HS256", 5, "sec"⟩ 1000 "agent-1"
     [("username", "alice")] "database" "prod-db" []).2.1 (by decide)
     (by decide)⟩

/-- C4 counterexample: with the collector unconfigured, one
log_credential_access call starting from an empty retry queue leaves the
queue non-empty — the queue is not unchanged. -/
theorem c4_unconfigured_counterexample :
    ¬ ((log_credential_access ⟨none, none, 3, true, [], []⟩ (fun _ => .exn)
          "2026-01-01T00:00:00Z" "mcp" "agent-1" "database/db1" "success"
          none).1.failed_events_queue = []) := by
  decide

/-- C4 amended: when the collector endpoint/token is not configured,
remote delivery is skipped entirely (zero HTTP attempts) and the local log
is written as usual; however the post is reported as failed, so the event
is appended to the in-memory retry queue (subject to the capacity-1000
bound) rather than leaving it unchanged. -/
theorem c4_unconfigured_skips_remote (st : AuditLoggerState)
    (deliver : Nat → PostOutcome)
    (timestamp protocol agent_id resource outcome : String)
    (metadata : Option (List (String × String)))
    (h : eventsApiEnabled st = false) :
    (log_credential_access st deliver timestamp protocol agent_id resource
      outcome metadata).2 = 0 ∧
    (log_credential_access st deliver timestamp protocol agent_id resource
      outcome metadata).1.local_log =
      (log_event_locally st (create_event_payload timestamp
        "credential_access" protocol agent_id resource outcome
        metadata)).local_log ∧
    (log_credential_access st deliver timestamp protocol agent_id resource
      outcome metadata).1.failed_events_queue =
      dequeAppend 1000 st.failed_events_queue
        (create_event_payload timestamp "credential_access" protocol
          agent_id resource outcome metadata) := by
  unfold log_credential_access post_event_to_api
  rw [h]
  cases hf : st.enable_local_fallback <;>
    simp [log_event_locally, hf]

/-- Witness for C4 amended at a concrete unconfigured logger. -/
theorem c4_unconfigured_skips_remote_witness :
    eventsApiEnabled ⟨none, none, 3, true, [], []⟩ = false ∧
    ((log_credential_access ⟨none, none, 3, true, [], []⟩ (fun _ => .exn)
        "2026-01-01T00:00:00Z" "mcp" "agent-1" "database/db1" "success"
        none).2 = 0 ∧
     (log_credential_access ⟨none, none, 3, true, [], []⟩ (fun _ => .exn)
        "2026-01-01T00:00:00Z" "mcp" "agent-1" "database/db1" "success"
        none).1.local_log =
       (log_event_locally ⟨none, none, 3, true, [], []⟩
         (create_event_payload "2026-01-01T00:00:00Z" "credential_access"
           "mcp" "agent-1" "database/db1" "success" none)).local_log ∧
     (log_credential_access ⟨none, none, 3, true, [], []⟩ (fun _ => .exn)
        "2026-01-01T00:00:00Z" "mcp" "agent-1" "database/db1" "success"
        none).1.failed_events_queue =
       dequeAppend 1000 []
         (create_event_payload "2026-01-01T00:00:00Z" "credential_access"
           "mcp" "agent-1" "database/db1" "success" none)) :=
  ⟨by decide,
   c4_unconfigured_skips_remote ⟨none, none, 3, true, [], []⟩
     (fun _ => .exn) "2026-01-01T00:00:00Z" "mcp" "agent-1" "database/db1"
     "success" none (by decide)⟩

theorem foldl_dequeAppend {α : Type} (m : Nat) (xs q : List α)
    (hq : q.length ≤ m) :
    List.foldl (dequeAppend m) q xs = (q ++ xs).drop ((q ++ xs).length - m) := by
  induction xs generalizing q with
  | nil =>
    simp only [List.foldl_nil, List.append_nil]
    rw [Nat.sub_eq_zero_of_le hq, List.drop_zero]
  | cons x xs ih =>
    rw [List.foldl_cons]
    by_cases hlen : m < (q ++ [x]).length
    · have hql : q.length = m := by
        simp only [List.length_append, List.length_singleton] at hlen
        omega
      have hstep : dequeAppend m q x = (q ++ [x]).drop 1 := by
        unfold dequeAppend
        rw [if_pos hlen]
        congr 1
        simp only [List.length_append, List.length_singleton]
        omega
      have hlen1 : ((q ++ [x]).drop 1).length = m := by
        simp [List.length_drop, hql]
      rw [hstep, ih _ (le_of_eq hlen1)]
      have hsplit : ((q ++ [x]).drop 1) ++ xs = ((q ++ [x]) ++ xs).drop 1 :=
        (List.drop_append_of_le_length (by simp)).symm
      rw [hsplit, List.drop_drop, List.append_assoc, List.singleton_append]
      congr 1
      simp only [List.length_drop, List.length_append, List.length_singleton,
        List.length_cons]
      omega
    · have hstep : dequeAppend m q x = q ++ [x] := by
        unfold dequeAppend
        rw [if_neg hlen]
      have hlen1 : (q ++ [x]).length ≤ m := le_of_not_lt hlen
      rw [hstep, ih _ hlen1, List.append_assoc, List.singleton_append]

/-- C7: the retry queue is a deque bounded at 1000 with
oldest-evicted-first overflow: appending 1100 events into the empty queue
leaves exactly 1000 present, namely all but the first 100 (the 1000 most
recent, in order); each append is a total function, never raising or
blocking. -/
theorem c7_queue_bound (events : List AuditEvent)
    (h : events.length = 1100) :
    (List.foldl (dequeAppend 1000) ([] : List AuditEvent) events).length
      = 1000 ∧
    List.foldl (dequeAppend 1000) ([] : List AuditEvent) events =
      events.drop 100 := by
  have hfold := foldl_dequeAppend 1000 events [] (by simp)
  simp only [List.nil_append] at hfold
  rw [h] at hfold
  norm_num at hfold
  refine ⟨?_, hfold⟩
  rw [hfold, List.length_drop, h]

/-- Witness for C7 with 1100 concrete events. -/
theorem c7_queue_bound_witness :
    (List.replicate 1100 (create_event_payload "t" "credential_access"
      "mcp" "agent-1" "database/db1" "failure" none)).length = 1100 ∧
    ((List.foldl (dequeAppend 1000) ([] : List AuditEvent)
        (List.replicate 1100 (create_event_payload "t" "credential_access"
          "mcp" "agent-1" "database/db1" "failure" none))).length = 1000 ∧
     List.foldl (dequeAppend 1000) ([] : List AuditEvent)
        (List.replicate 1100 (create_event_payload "t" "credential_access"
          "mcp" "agent-1" "database/db1" "failure" none)) =
       (List.replicate 1100 (create_event_payload "t" "credential_access"
          "mcp" "agent-1" "database/db1" "failure" none)).drop 100) :=
  ⟨by rw [List.length_replicate], c7_queue_bound _ (by rw [List.length_replicate])⟩

/-- C6: for every resource_type outside the valid enum, fetch_credentials
fails with the invalid-input error listing the valid set, and the vault
gateway lookup is never invoked (the instrumented call trace is empty). -/
theorem c6_invalid_type_before_vault
    (lookup : String → Option String → Option OPItem)
    (resource_type resource_name : String) (vault_id : Option String)
    (h : ResourceTypeValues.contains resource_type = false) :
    fetch_credentials lookup resource_type resource_name vault_id =
      (.error ("Invalid resource_type: " ++ resource_type ++
        ". Must be one of: [\x27database\x27, \x27api\x27, \x27ssh\x27, \x27generic\x27]"),
       []) := by
  unfold fetch_credentials
  rw [h]
  rfl

/-- Witness for C6 at resource_type "bogus". -/
theorem c6_invalid_type_before_vault_witness :
    ResourceTypeValues.contains "bogus" = false ∧
    fetch_credentials sampleLookup "bogus" "item-1" none =
      (.error ("Invalid resource_type: " ++ "bogus" ++
        ". Must be one of: [\x27database\x27, \x27api\x27, \x27ssh\x27, \x27generic\x27]"),
       []) :=
  ⟨by decide,
   c6_invalid_type_before_vault sampleLookup "bogus" "item-1" none (by decide)⟩

theorem lookupAssoc_none_of_not_any {α : Type} (d : List (String × α))
    (k : String) (h : d.any (fun p => p.1 = k) = false) :
    lookupAssoc d k = none := by
  induction d with
  | nil => rfl
  | cons p rest ih =>
    simp only [List.any_cons, Bool.or_eq_false_iff] at h
    have hp : p.1 ≠ k := by
      intro he
      simp [he] at h
    simp only [lookupAssoc, if_neg hp]
    exact ih h.2

theorem lookupAssoc_map_set {α : Type} (d : List (String × α)) (k : String)
    (v : α) (h : d.any (fun p => p.1 = k) = true) :
    lookupAssoc (d.map (fun p => if p.1 = k then (k, v) else p)) k =
      some v := by
  induction d with
  | nil => simp at h
  | cons p rest ih =>
    by_cases hp : p.1 = k
    · simp only [List.map_cons, if_pos hp]
      show lookupAssoc ((k, v) :: _) k = some v
      simp [lookupAssoc]
    · simp only [List.any_cons, Bool.or_eq_true_iff] at h
      rcases h with h | h
      · exact absurd (by simpa using h) hp
      · simp only [List.map_cons, if_neg hp, lookupAssoc, if_neg hp]
        exact ih h

theorem lookupAssoc_append_self {α : Type} (d : List (String × α))
    (k : String) (v : α) (h : lookupAssoc d k = none) :
    lookupAssoc (d ++ [(k, v)]) k = some v := by
  induction d with
  | nil => simp [lookupAssoc]
  | cons p rest ih =>
    have hp : p.1 ≠ k := by
      intro he
      simp [lookupAssoc, he] at h
    have hr : lookupAssoc rest k = none := by
      simpa [lookupAssoc, if_neg hp] using h
    simp only [List.cons_append, lookupAssoc, if_neg hp]
    exact ih hr

theorem lookupAssoc_dictInsert_self (d : List (String × String))
    (k v : String) : lookupAssoc (dictInsert d k v) k = some v := by
  unfold dictInsert
  by_cases h : d.any (fun p => p.1 = k)
  · rw [if_pos h]
    exact lookupAssoc_map_set d k v h
  · rw [if_neg h]
    refine lookupAssoc_append_self d k v
      (lookupAssoc_none_of_not_any d k ?_)
    rw [← Bool.not_eq_true]
    exact h

theorem lookupAssoc_dictInsert_other (d : List (String × String))
    (k k2 v : String) (hne : k ≠ k2) :
    lookupAssoc (dictInsert d k v) k2 = lookupAssoc d k2 := by
  unfold dictInsert
  by_cases h : d.any (fun p => p.1 = k)
  · rw [if_pos h]
    exact lookupAssoc_map_replace d (k, v) k2 hne
  · rw [if_neg h]
    exact lookupAssoc_append_singleton d (k, v) k2 hne

/-- C10: every successful fetch_credentials call returns the credential
map extracted from the item the vault gateway returned, and that map
always carries the three metadata keys _item_id, _item_title and
_vault_id, the last falling back to "unknown" when the item has no vault
attribute. -/
theorem c10_metadata_keys
    (lookup : String → Option String → Option OPItem)
    (resource_type resource_name : String) (vault_id : Option String)
    (creds : Cred)
    (h : (fetch_credentials lookup resource_type resource_name vault_id).1 =
      .ok creds) :
    ∃ item, lookup resource_name vault_id = some item ∧
      creds = extract_credential_fields item ∧
      lookupAssoc creds "_item_id" = some item.id ∧
      lookupAssoc creds "_item_title" = some item.title ∧
      lookupAssoc creds "_vault_id" =
        some (match item.vault with
              | some v => v.id
              | none => "unknown") := by
  unfold fetch_credentials at h
  by_cases hv : ResourceTypeValues.contains resource_type
  · rw [if_pos hv] at h
    cases hl : lookup resource_name vault_id with
    | none =>
      rw [hl] at h
      simp at h
    | some item =>
      rw [hl] at h
      simp only [Except.ok.injEq] at h
      refine ⟨item, rfl, h.symm, ?_, ?_, ?_⟩ <;>
        rw [h.symm]
      · unfold extract_credential_fields
        rw [lookupAssoc_dictInsert_other _ _ _ _ (by decide),
          lookupAssoc_dictInsert_other _ _ _ _ (by decide),
          lookupAssoc_dictInsert_self]
      · unfold extract_credential_fields
        rw [lookupAssoc_dictInsert_other _ _ _ _ (by decide),
          lookupAssoc_dictInsert_self]
      · unfold extract_credential_fields
        rw [lookupAssoc_dictInsert_self]
  · rw [if_neg hv] at h
    simp at h

/-- Witness for C10 at a concrete item without a vault attribute. -/
theorem c10_metadata_keys_witness :
    (fetch_credentials sampleLookup "generic" "item-1" none).1 =
      .ok (extract_credential_fields sampleItem) ∧
    (∃ item, sampleLookup "item-1" none = some item ∧
      extract_credential_fields sampleItem = extract_credential_fields item ∧
      lookupAssoc (extract_credential_fields sampleItem) "_item_id" =
        some item.id ∧
      lookupAssoc (extract_credential_fields sampleItem) "_item_title" =
        some item.title ∧
      lookupAssoc (extract_credential_fields sampleItem) "_vault_id" =
        some (match item.vault with
              | some v => v.id
              | none => "unknown")) :=
  ⟨rfl,
   c10_metadata_keys sampleLookup "generic" "item-1" none
     (extract_credential_fields sampleItem) rfl⟩

/-- C8: verify_and_decrypt is the composition of verify_jwt and
decrypt_payload: a verified token whose claim set lacks the credentials
field, or holds a falsy one, fails with the distinct no-embedded-payload
ValueError; a verified token carrying the field decrypts it, propagating
the decryption error unchanged; and a failed verification propagates the
pyjwt error unchanged. -/
theorem c8_verify_then_decrypt (cfg : TokenManagerCfg) (now : Int)
    (tok : SignedJwt) :
    (∀ payload, verify_jwt cfg now tok = .ok payload →
      ((lookupClaim payload "credentials" = none ∨
        (∃ v, lookupClaim payload "credentials" = some v ∧
          claimValFalsy v = true)) →
        verify_and_decrypt cfg now tok =
          .error (.valueError "Token does not contain encrypted credentials")) ∧
      (∀ v, lookupClaim payload "credentials" = some v →
        claimValFalsy v = false →
        verify_and_decrypt cfg now tok =
          (match decrypt_payload cfg.encryption_key (claimToCipher v) with
           | .ok creds => .ok (mkDecryptedContext payload creds)
           | .error m => .error (.valueError m)))) ∧
    (∀ e, verify_jwt cfg now tok = .error e →
      verify_and_decrypt cfg now tok = .error (jwtErrToTokErr e)) := by
  refine ⟨?_, ?_⟩
  · intro payload hok
    have hvd : verify_and_decrypt cfg now tok =
        (match lookupClaim payload "credentials" with
         | none =>
           .error (.valueError "Token does not contain encrypted credentials")
         | some v =>
           if claimValFalsy v then
             .error (.valueError "Token does not contain encrypted credentials")
           else
             match decrypt_payload cfg.encryption_key (claimToCipher v) with
             | .error m => .error (.valueError m)
             | .ok creds => .ok (mkDecryptedContext payload creds)) := by
      unfold verify_and_decrypt
      rw [hok]
    refine ⟨?_, ?_⟩
    · intro hfalsy
      rw [hvd]
      rcases hfalsy with hnone | ⟨v, hv, hf⟩
      · rw [hnone]
      · rw [hv]
        simp [hf]
    · intro v hv hf
      rw [hvd, hv]
      simp only [hf, Bool.false_eq_true, if_false]
      cases decrypt_payload cfg.encryption_key (claimToCipher v) <;> rfl
  · intro e he
    unfold verify_and_decrypt
    rw [he]

/-- Witness for C8: a verified token with no credentials claim fails with
the no-embedded-payload error. -/
theorem c8_verify_then_decrypt_witness :
    verify_jwt ⟨"sec", "HS256", 5, "sec"⟩ 0
        ⟨[("exp", ClaimVal.i 100)], "sec", "HS256"⟩ =
      .ok [("exp", ClaimVal.i 100)] ∧
    lookupClaim [("exp", ClaimVal.i 100)] "credentials" = none ∧
    verify_and_decrypt ⟨"sec", "HS256", 5, "sec"⟩ 0
        ⟨[("exp", ClaimVal.i 100)], "sec", "HS256"⟩ =
      .error (.valueError "Token does not contain encrypted credentials") :=
  ⟨by rfl, by decide,
   ((c8_verify_then_decrypt ⟨"sec", "HS256", 5, "sec"⟩ 0
       ⟨[("exp", ClaimVal.i 100)], "sec", "HS256"⟩).1
     [("exp", ClaimVal.i 100)] (by rfl)).1 (Or.inl (by decide))⟩

end Broker
